import Mathlib

/-
Verification of the lead/inbox core of the ausa-diploma-api repository.

The development is a shallow embedding of the JavaScript source into Lean:
pure helpers become Lean functions, database state becomes an explicit
record that is threaded through each operation, and each Express handler
becomes a function from its parsed inputs (plus the outcomes of its
external collaborators) to a response record.  Storage accesses performed
by a handler are recorded in an explicit trace so that statements of the
form "rejects before touching storage" are expressible.

Sections, in dependency order:
  1. utils/leadUtils.js       : allow-list, enum statuses, mapper, resolver, mutator
  2. routes/websiteAdminInbox.js : the upsert-based resolver variant
  3. routes/adminInbox.js (registry revision) : status registry cache and handlers
  4. diploma student creation (welcome-email policy)
  5. staff PATCH (last-active-admin guard)
  6. theorems for the individual claims
-/

/-! ## 1. utils/leadUtils.js -/

/-- The fixed allow-list of source tables (`ALLOWED_SOURCES` in
utils/leadUtils.js, duplicated verbatim in routes/websiteAdminInbox.js). -/
def ALLOWED_SOURCES : List String :=
  ["applications", "course_preregistrations", "inquiries",
   "school_leads", "university_leads", "workshop_reservations"]

/-- The hardcoded lead status enum (`LEAD_STATUSES` in utils/leadUtils.js). -/
def LEAD_STATUSES : List String :=
  ["new", "in_review", "contacted", "qualified", "converted", "archived"]

/-- `leadKindForSource` from utils/leadUtils.js (same function is duplicated
in routes/websiteAdminInbox.js). -/
def leadKindForSource (sourceTable : String) : String :=
  if sourceTable = "applications" then "application"
  else if sourceTable = "course_preregistrations" then "course_prereg"
  else if sourceTable = "inquiries" then "general_inquiry"
  else if sourceTable = "school_leads" then "school_lead"
  else if sourceTable = "university_leads" then "university_partner"
  else if sourceTable = "workshop_reservations" then "workshop_reservation"
  else "general_inquiry"

/-- JavaScript `v || null` applied to a nullable string: the empty string is
falsy and collapses to null. -/
def orNull (v : Option String) : Option String :=
  match v with
  | none => none
  | some s => if s = "" then none else some s

/-- `safeLeadStatus` from utils/leadUtils.js: a falsy candidate gives null,
a candidate outside `LEAD_STATUSES` gives null, otherwise the candidate. -/
def safeLeadStatus (candidate : Option String) : Option String :=
  match candidate with
  | none => none
  | some c =>
      if c = "" then none
      else if LEAD_STATUSES.contains c then some c else none

/-- A row of the `leads` table. -/
structure Lead where
  id : Nat
  kind : String
  source_table : String
  source_row_id : String
  source_page : Option String
  status : String
  assigned_to : Option String
deriving DecidableEq, Repr

/-- A row of the append-only `lead_events` table. -/
structure LeadEvent where
  lead_id : Nat
  event_kind : String
  title : Option String
  body : Option String
  from_status : Option String
  to_status : Option String
  created_by : Option String
deriving DecidableEq, Repr

/-- The slice of database state the lead core touches: the `leads` table,
the `lead_events` table, and a fresh-id source standing in for the
id generation of the store. -/
structure DB where
  leads : List Lead
  events : List LeadEvent
  nextLeadId : Nat
deriving DecidableEq, Repr

/-- Lookup of a lead by its composite natural key, as performed by
`.eq(source_table).eq(source_row_id).maybeSingle()`. -/
def findLead (db : DB) (source_table source_id : String) : Option Lead :=
  db.leads.find? (fun l => l.source_table == source_table && l.source_row_id == source_id)

/-- Number of `leads` rows carrying a given (source_table, source_row_id) pair. -/
def pairCount (db : DB) (source_table source_id : String) : Nat :=
  (db.leads.filter (fun l => l.source_table == source_table && l.source_row_id == source_id)).length

/-- The synthetic seed event inserted right after lead creation. -/
def leadCreatedEvent (lead_id : Nat) (source_table source_id : String) : LeadEvent :=
  { lead_id := lead_id
    event_kind := "other"
    title := some "Lead created"
    body := some ("Created lead for " ++ source_table ++ ":" ++ source_id)
    from_status := none
    to_status := none
    created_by := none }

/-- `getOrCreateLead` from utils/leadUtils.js: look up the lead by
(source_table, source_row_id); if found return it unchanged, otherwise
insert a new lead (status defaulted by the store to "new") followed by the
synthetic "Lead created" event. -/
def getOrCreateLead (db : DB) (source_table source_id : String)
    (assigned_to source_page : Option String) : DB × Lead :=
  match findLead db source_table source_id with
  | some existing => (db, existing)
  | none =>
      let inserted : Lead :=
        { id := db.nextLeadId
          kind := leadKindForSource source_table
          source_table := source_table
          source_row_id := source_id
          source_page := orNull source_page
          status := "new"
          assigned_to := orNull assigned_to }
      ({ leads := db.leads ++ [inserted]
         events := db.events ++ [leadCreatedEvent inserted.id source_table source_id]
         nextLeadId := db.nextLeadId + 1 },
       inserted)

/-- Result of `updateLeadStatusAndAssign`: the lead returned to the caller,
the number of `leads` table writes performed, and the events appended to
`lead_events`. -/
structure MutResult where
  lead : Lead
  writes : Nat
  newEvents : List LeadEvent
deriving DecidableEq, Repr

/-- `updateLeadStatusAndAssign` from utils/leadUtils.js.  `to_status` is the
(possibly undefined) requested status; `assigned_to` is `none` when the field
was undefined in the call and `some v` when it was passed (where `v = none`
models null).  A status update happens only when `safeLeadStatus` accepts the
candidate and it differs from the current status; an assignment update
happens only when the argument was passed and differs from the current
value.  An empty update object returns the lead with no write and no event;
otherwise one row update is issued, followed by one `status_change` event
when the status changed and one "Assignment changed" event (kind `other`)
when the assignment changed. -/
def updateLeadStatusAndAssign (lead : Lead) (to_status : Option String)
    (assigned_to : Option (Option String)) (actor_staff_id : Option String) : MutResult :=
  let safeStatus := safeLeadStatus to_status
  let statusUpd : Option String :=
    match safeStatus with
    | some s => if s ≠ lead.status then some s else none
    | none => none
  let assignUpd : Option (Option String) :=
    match assigned_to with
    | some v => if v ≠ lead.assigned_to then some (orNull v) else none
    | none => none
  if statusUpd.isNone && assignUpd.isNone then
    { lead := lead, writes := 0, newEvents := [] }
  else
    let updated : Lead :=
      { lead with
        status := statusUpd.getD lead.status
        assigned_to := match assignUpd with | some v => v | none => lead.assigned_to }
    let statusEvents : List LeadEvent :=
      match statusUpd with
      | some s =>
          [{ lead_id := lead.id
             event_kind := "status_change"
             title := some "Status changed"
             body := some ("Lead status changed: " ++ lead.status ++ " → " ++ s)
             from_status := some lead.status
             to_status := some s
             created_by := orNull actor_staff_id }]
      | none => []
    let assignEvents : List LeadEvent :=
      match assignUpd with
      | some _ =>
          [{ lead_id := lead.id
             event_kind := "other"
             title := some "Assignment changed"
             body := some "Lead assigned_to updated."
             from_status := none
             to_status := none
             created_by := orNull actor_staff_id }]
      | none => []
    { lead := updated, writes := 1, newEvents := statusEvents ++ assignEvents }

/-- Applying a mutator result to the database: the single row update (when
one was issued) plus the appended events. -/
def applyMut (db : DB) (r : MutResult) : DB :=
  { db with
    leads :=
      if r.writes = 0 then db.leads
      else db.leads.map (fun l => if l.id = r.lead.id then r.lead else l)
    events := db.events ++ r.newEvents }

/-! ## 2. routes/websiteAdminInbox.js : the upsert-based resolver -/

/-- Is there any event for the given lead (the `limit 1` existence probe in
routes/websiteAdminInbox.js getOrCreateLead)? -/
def hasEventFor (db : DB) (lead_id : Nat) : Bool :=
  db.events.any (fun e => e.lead_id == lead_id)

/-- Seed the "Lead created" event unless the lead already has some event
(the check-then-insert sequence of routes/websiteAdminInbox.js). -/
def seedEventIfMissing (db : DB) (lead_id : Nat) (source_table source_id : String) : DB :=
  if hasEventFor db lead_id then db
  else { db with events := db.events ++ [leadCreatedEvent lead_id source_table source_id] }

/-- `getOrCreateLead` from routes/websiteAdminInbox.js.  It issues
`upsert(payload, onConflict source_table,source_row_id)`: when no row holds
the pair the payload is inserted; when a row already holds the pair the
conflict is resolved by updating the supplied columns (kind, source_page,
assigned_to) of the existing row, leaving id and status untouched.  The
returned row is then given a "Lead created" event unless it already has one. -/
def wa_getOrCreateLead (db : DB) (source_table source_id : String)
    (assigned_to source_page : Option String) : DB × Lead :=
  match findLead db source_table source_id with
  | some existing =>
      let updated : Lead :=
        { existing with
          kind := leadKindForSource source_table
          source_page := orNull source_page
          assigned_to := orNull assigned_to }
      let db1 : DB :=
        { db with leads := db.leads.map (fun l => if l.id = existing.id then updated else l) }
      (seedEventIfMissing db1 updated.id source_table source_id, updated)
  | none =>
      let inserted : Lead :=
        { id := db.nextLeadId
          kind := leadKindForSource source_table
          source_table := source_table
          source_row_id := source_id
          source_page := orNull source_page
          status := "new"
          assigned_to := orNull assigned_to }
      let db1 : DB :=
        { db with leads := db.leads ++ [inserted], nextLeadId := db.nextLeadId + 1 }
      (seedEventIfMissing db1 inserted.id source_table source_id, inserted)

/-! ## 3. routes/adminInbox.js, registry revision (src/unnamed/part_004) -/

/-- A row of the `inbox_status` lookup table. -/
structure StatusRow where
  code : String
  label : String
  sort_order : Nat
  is_terminal : Bool
deriving DecidableEq, Repr

/-- The shape `loadInboxStatuses` maps each row to. -/
structure StatusEntry where
  value : String
  label : String
  sortOrder : Nat
  isTerminal : Bool
deriving DecidableEq, Repr

/-- The module-level `_statusCache` record (`at`, `ttlMs`, cached list; the
derived membership set is recomputed from the list here). -/
structure StatusCache where
  loadedAt : Nat
  ttlMs : Nat
  cached : Option (List StatusEntry)
deriving DecidableEq, Repr

/-- The initial cache value `{ at: 0, ttlMs: 30_000, list: null, set: null }`. -/
def emptyStatusCache : StatusCache :=
  { loadedAt := 0, ttlMs := 30000, cached := none }

/-- Stable insertion into a list sorted by `le`. -/
def insertSorted (le : α → α → Bool) (x : α) : List α → List α
  | [] => [x]
  | y :: ys => if le x y then x :: y :: ys else y :: insertSorted le x ys

/-- Insertion sort by a boolean comparison (executable model of the
order-by clauses issued to the store). -/
def sortByB (le : α → α → Bool) : List α → List α
  | [] => []
  | x :: xs => insertSorted le x (sortByB le xs)

/-- Comparison realising `order by sort_order asc, code asc`. -/
def statusRowLe (a b : StatusRow) : Bool :=
  a.sort_order < b.sort_order || (a.sort_order == b.sort_order && a.code ≤ b.code)

/-- Result of a `loadInboxStatuses` call: the list handed to the caller, the
cache state afterwards, and whether the store was actually read. -/
structure RegistryLoad where
  list : List StatusEntry
  cache : StatusCache
  storeRead : Bool
deriving DecidableEq, Repr

/-- The cache-miss path of `loadInboxStatuses`: read `inbox_status` ordered
by sort order then code, map rows to entries, refresh the cache.  A store
error is thrown to the caller. -/
def loadFresh (now : Nat) (cache : StatusCache)
    (store : Except String (List StatusRow)) : Except String RegistryLoad :=
  match store with
  | .error e => .error e
  | .ok rows =>
      let list := (sortByB statusRowLe rows).map (fun r =>
        { value := r.code, label := r.label
          sortOrder := r.sort_order, isTerminal := r.is_terminal })
      .ok { list := list
            cache := { cache with loadedAt := now, cached := some list }
            storeRead := true }

/-- `loadInboxStatuses` from the registry revision of routes/adminInbox.js:
a populated cache younger than its time-to-live is returned without a store
read; otherwise the store is consulted. -/
def loadInboxStatuses (now : Nat) (cache : StatusCache)
    (store : Except String (List StatusRow)) : Except String RegistryLoad :=
  match cache.cached with
  | some l =>
      if now - cache.loadedAt < cache.ttlMs then
        .ok { list := l, cache := cache, storeRead := false }
      else loadFresh now cache store
  | none => loadFresh now cache store

/-- `assertValidStatusOrThrow`: membership of the candidate in the loaded
registry (a store failure propagates as the thrown error). -/
def assertValidStatusOrThrow (now : Nat) (cache : StatusCache)
    (store : Except String (List StatusRow)) (statusValue : String) :
    Except String (Bool × RegistryLoad) :=
  match loadInboxStatuses now cache store with
  | .error e => .error e
  | .ok r => .ok (r.list.any (fun x => x.value == statusValue), r)

/-- Executable model of JavaScript `String.prototype.trim` (structural, so
that concrete evaluations reduce inside the kernel). -/
def jsTrim (s : String) : String :=
  String.mk (((s.data.dropWhile Char.isWhitespace).reverse.dropWhile Char.isWhitespace).reverse)

/-- Executable model of JavaScript `String.prototype.toLowerCase`. -/
def jsToLower (s : String) : String :=
  String.mk (s.data.map Char.toLower)

/-- Does the first character list start the second one? -/
def startsWithChars : List Char → List Char → Bool
  | [], _ => true
  | _ :: _, [] => false
  | a :: as, b :: bs => a == b && startsWithChars as bs

/-- Does the second character list contain the first as a contiguous run? -/
def containsChars (needle : List Char) : List Char → Bool
  | [] => startsWithChars needle []
  | c :: rest => startsWithChars needle (c :: rest) || containsChars needle rest

/-- The storage operations a handler can issue, for tracing when a request
touches the store. -/
inductive StorageOp
  | readRegistry
  | readView
  | readSource
  | updateSource
  | readLeads
  | insertLead
  | updateLead
  | readEvents
  | insertEvent
  | sendEmail
deriving DecidableEq, Repr

/-- Storage trace of a `getOrCreateLead` call from utils/leadUtils.js: the
lookup always reads `leads`; the creation path additionally inserts the lead
and its seed event. -/
def getOrCreateLeadOps (db : DB) (source_table source_id : String) : List StorageOp :=
  match findLead db source_table source_id with
  | some _ => [.readLeads]
  | none => [.readLeads, .insertLead, .insertEvent]

/-- A row of the unified inbox views `v_inbox_all` / `v_inbox_open`. -/
structure InboxViewRow where
  created_at : Nat
  kind : String
  source_table : String
  assigned_to : Option String
  full_name : String
  email : String
  organization_name : String
  city : String
  interest_summary : String
deriving DecidableEq, Repr

/-- JavaScript truthy-or chaining over nullable strings
(`a?.x || b?.x || null`). -/
def jsOr (a b : Option String) : Option String :=
  match orNull a with
  | some s => some s
  | none => orNull b

/-- Case-insensitive substring test, the semantics of the
`ilike %q%` filters (the `%`/`_` escaping in the source only protects the
SQL pattern so that the match is this literal one). -/
def ilikeContains (hay q : String) : Bool :=
  containsChars (jsToLower q).data (jsToLower hay).data

/-- Query parameters of `GET /inbox`, after Express query parsing.  `page`
and `pageSize` are `none` when absent or non-numeric (`parseInt`/`Math.max`
on a missing value defaults them below). -/
structure ListQuery where
  scope : Option String
  q : Option String
  kind : Option String
  source_table : Option String
  assigned_to : Option String
  page : Option Nat
  pageSize : Option Nat
deriving DecidableEq, Repr

/-- Response of the inbox list handler. -/
structure ListResult where
  status : Nat
  rows : List InboxViewRow
  total : Nat
  page : Nat
  pageSize : Nat
  ops : List StorageOp
deriving DecidableEq, Repr

/-- The filter pipeline of the list handler: optional equality filters on
kind / source_table / assigned_to and the OR-combined ilike filters on the
five text columns. -/
def applyListFilters (rows : List InboxViewRow) (q kind source_table assigned_to : String) :
    List InboxViewRow :=
  let rows := if kind ≠ "" then rows.filter (fun r => r.kind == kind) else rows
  let rows := if source_table ≠ "" then rows.filter (fun r => r.source_table == source_table) else rows
  let rows := if assigned_to ≠ "" then rows.filter (fun r => r.assigned_to == some assigned_to) else rows
  if q ≠ "" then
    rows.filter (fun r =>
      ilikeContains r.full_name q || ilikeContains r.email q ||
      ilikeContains r.organization_name q || ilikeContains r.city q ||
      ilikeContains r.interest_summary q)
  else rows

/-- `order by created_at desc`. -/
def sortNewestFirst (rows : List InboxViewRow) : List InboxViewRow :=
  sortByB (fun a b => b.created_at ≤ a.created_at) rows

/-- `GET /inbox` from the registry revision of routes/adminInbox.js
(src/unnamed/part_004; lines 96-141 match routes/adminInbox.js lines 18-62).
`viewOpen`/`viewAll` are the current contents of the two views; `dbErr`
models a failing view read.  Pagination: page is clamped to at least 1,
pageSize defaults to 25 and is clamped into [10, 100], and the inclusive
range `[from, to]` is requested from the store together with the exact
count of the filtered result. -/
def listInbox (viewOpen viewAll : List InboxViewRow) (dbErr : Option String)
    (params : ListQuery) : ListResult :=
  let scope := params.scope.getD "open"
  let view := if scope = "all" then viewAll else viewOpen
  let q := jsTrim (params.q.getD "")
  let kind := jsTrim (params.kind.getD "")
  let source_table := jsTrim (params.source_table.getD "")
  let assigned_to := jsTrim (params.assigned_to.getD "")
  let page := max 1 (params.page.getD 1)
  let pageSize := min 100 (max 10 (params.pageSize.getD 25))
  let start := (page - 1) * pageSize
  let stop := start + pageSize - 1
  let filtered := applyListFilters (sortNewestFirst view) q kind source_table assigned_to
  match dbErr with
  | some _ =>
      { status := 500, rows := [], total := 0, page := page, pageSize := pageSize
        ops := [.readView] }
  | none =>
      { status := 200
        rows := (filtered.drop start).take (stop - start + 1)
        total := filtered.length
        page := page
        pageSize := pageSize
        ops := [.readView] }

/-- The fields of a `v_inbox_all` row the detail/patch handlers consult. -/
structure InboxRowInfo where
  assigned_to : Option String
  source_page : Option String
deriving DecidableEq, Repr

/-- The fields of a raw source row the detail handler consults. -/
structure SourceRowInfo where
  assigned_to : Option String
  source_page : Option String
deriving DecidableEq, Repr

/-- Response shape shared by the detail/patch/note/reply handlers. -/
structure InboxResult where
  status : Nat
  errorCode : Option String
  lead : Option Lead
  db : DB
  cache : StatusCache
  ops : List StorageOp
deriving DecidableEq, Repr

/-- `GET /inbox/:source_table/:source_id` from the registry revision of
routes/adminInbox.js: allow-list guard, inbox view read, source row read
(404 when absent), lead resolution, event read. -/
def detailInbox (db : DB) (cache : StatusCache)
    (source_table source_id : String)
    (inboxRow : Option InboxRowInfo) (sourceRow : Option SourceRowInfo) : InboxResult :=
  if ¬ ALLOWED_SOURCES.contains source_table then
    { status := 400, errorCode := some "BAD_REQUEST", lead := none
      db := db, cache := cache, ops := [] }
  else
    match sourceRow with
    | none =>
        { status := 404, errorCode := some "NOT_FOUND", lead := none
          db := db, cache := cache, ops := [.readView, .readSource] }
    | some src =>
        let r := getOrCreateLead db source_table source_id
          (jsOr (inboxRow.bind (·.assigned_to)) src.assigned_to)
          (jsOr (inboxRow.bind (·.source_page)) src.source_page)
        { status := 200, errorCode := none, lead := some r.2
          db := r.1, cache := cache
          ops := [.readView, .readSource] ++ getOrCreateLeadOps db source_table source_id
                   ++ [.readEvents] }

/-- The zod-parsed body of `PATCH /inbox/:source_table/:source_id`
(registry revision): each field optional; `assigned_to` is `some none`
for an explicit null. -/
structure ParsedPatch where
  source_status : Option String
  assigned_to : Option (Option String)
  lead_status : Option String
deriving DecidableEq, Repr

/-- `PATCH /inbox/:source_table/:source_id` from the registry revision of
routes/adminInbox.js (src/unnamed/part_004 lines 191-264).  `parsed` is
`none` when the zod parse failed; `registry` is the `inbox_status` table
read outcome; `sourceUpdateErr` models a failing source row update.  Both
provided statuses are validated against the registry before any further
storage access; the mutation is then mirrored into the source row and the
lead via `updateLeadStatusAndAssign`. -/
def patchInbox (db : DB) (cache : StatusCache) (now : Nat)
    (registry : Except String (List StatusRow))
    (inboxRow : Option InboxRowInfo)
    (staffUserId : Option String)
    (sourceUpdateErr : Option String)
    (source_table source_id : String)
    (parsed : Option ParsedPatch) : InboxResult :=
  if ¬ ALLOWED_SOURCES.contains source_table then
    { status := 400, errorCode := some "BAD_REQUEST", lead := none
      db := db, cache := cache, ops := [] }
  else
    match parsed with
    | none =>
        { status := 400, errorCode := some "BAD_REQUEST", lead := none
          db := db, cache := cache, ops := [] }
    | some p =>
        let srcCheck :
            Except String ((Option String × Bool) × StatusCache × List StorageOp) :=
          match p.source_status with
          | none => .ok ((none, true), cache, [])
          | some s =>
              match assertValidStatusOrThrow now cache registry s with
              | .error e => .error e
              | .ok (ok, r) =>
                  .ok ((some s, ok), r.cache, if r.storeRead then [.readRegistry] else [])
        match srcCheck with
        | .error _ =>
            { status := 500, errorCode := some "SERVER_ERROR", lead := none
              db := db, cache := cache, ops := [] }
        | .ok ((srcStatus, srcOk), cache1, ops1) =>
          if ¬ srcOk then
            { status := 400, errorCode := some "INVALID_STATUS", lead := none
              db := db, cache := cache1, ops := ops1 }
          else
            let leadCheck :
                Except String (Bool × StatusCache × List StorageOp) :=
              match p.lead_status with
              | none => .ok (true, cache1, ops1)
              | some s =>
                  match assertValidStatusOrThrow now cache1 registry s with
                  | .error e => .error e
                  | .ok (ok, r) =>
                      .ok (ok, r.cache, ops1 ++ if r.storeRead then [.readRegistry] else [])
            match leadCheck with
            | .error _ =>
                { status := 500, errorCode := some "SERVER_ERROR", lead := none
                  db := db, cache := cache1, ops := ops1 }
            | .ok (leadOk, cache2, ops2) =>
              if ¬ leadOk then
                { status := 400, errorCode := some "INVALID_STATUS", lead := none
                  db := db, cache := cache2, ops := ops2 }
              else
                let r := getOrCreateLead db source_table source_id
                  (inboxRow.bind (fun i => orNull i.assigned_to))
                  (inboxRow.bind (fun i => orNull i.source_page))
                let db1 := r.1
                let lead := r.2
                let ops3 := ops2 ++ [.readView] ++ getOrCreateLeadOps db source_table source_id
                let hasSourceUpdate := srcStatus.isSome || p.assigned_to.isSome
                if hasSourceUpdate ∧ sourceUpdateErr.isSome then
                  { status := 400, errorCode := some "BAD_REQUEST", lead := none
                    db := db1, cache := cache2, ops := ops3 ++ [.updateSource] }
                else
                  let ops4 := ops3 ++ if hasSourceUpdate then [.updateSource] else []
                  let m := updateLeadStatusAndAssign lead p.lead_status
                    (some (match p.assigned_to with | some v => v | none => lead.assigned_to))
                    staffUserId
                  { status := 200, errorCode := none, lead := some m.lead
                    db := applyMut db1 m, cache := cache2
                    ops := ops4 ++ (if m.writes = 0 then [] else [.updateLead])
                             ++ m.newEvents.map (fun _ => .insertEvent) }

/-- The zod-parsed body of the note endpoint (body nonempty, title optional). -/
structure ParsedNote where
  noteBody : String
  title : Option String
deriving DecidableEq, Repr

/-- `POST /inbox/:source_table/:source_id/note` from the registry revision
of routes/adminInbox.js: allow-list guard, zod parse, lead resolution, one
note event. -/
def noteInbox (db : DB) (cache : StatusCache)
    (staffUserId : Option String)
    (source_table source_id : String)
    (parsed : Option ParsedNote) : InboxResult :=
  if ¬ ALLOWED_SOURCES.contains source_table then
    { status := 400, errorCode := some "BAD_REQUEST", lead := none
      db := db, cache := cache, ops := [] }
  else
    match parsed with
    | none =>
        { status := 400, errorCode := some "BAD_REQUEST", lead := none
          db := db, cache := cache, ops := [] }
    | some p =>
        let r := getOrCreateLead db source_table source_id none none
        let ev : LeadEvent :=
          { lead_id := r.2.id
            event_kind := "note"
            title := orNull (some ((orNull p.title).getD "Note"))
            body := orNull (some p.noteBody)
            from_status := none
            to_status := none
            created_by := orNull staffUserId }
        { status := 200, errorCode := none, lead := some r.2
          db := { r.1 with events := r.1.events ++ [ev] }, cache := cache
          ops := getOrCreateLeadOps db source_table source_id ++ [.insertEvent] }

/-- The zod-parsed body of the reply endpoint. -/
structure ParsedReply where
  toAddr : String
  subject : String
  text : Option String
  html : Option String
  set_source_status : Option String
  set_lead_status : Option String
deriving DecidableEq, Repr

/-- The body text of the logged email event: the non-falsy lines joined by
newlines (`[To, Subject, id?, blank, text].filter(Boolean).join(newline)`;
note that `filter(Boolean)` also drops the deliberate blank line). -/
def replyEmailBody (toAddr subject : String) (resendId text : Option String) : String :=
  let items : List String :=
    [("To: " ++ toAddr), ("Subject: " ++ subject)]
      ++ (match resendId with | some i => ["Resend ID: " ++ i] | none => [])
      ++ [""]
      ++ [(orNull text).getD "(html email sent)"]
  String.intercalate "\n" (items.filter (fun s => s ≠ ""))

/-- `POST /inbox/:source_table/:source_id/reply` from the registry revision
of routes/adminInbox.js: allow-list guard, zod parse, registry validation of
both optional statuses, lead resolution, email send, email event, optional
source status update, optional lead status update through the mutator. -/
def replyInbox (db : DB) (cache : StatusCache) (now : Nat)
    (registry : Except String (List StatusRow))
    (staffUserId : Option String)
    (sourceUpdateErr : Option String)
    (resendId : Option String)
    (source_table source_id : String)
    (parsed : Option ParsedReply) : InboxResult :=
  if ¬ ALLOWED_SOURCES.contains source_table then
    { status := 400, errorCode := some "BAD_REQUEST", lead := none
      db := db, cache := cache, ops := [] }
  else
    match parsed with
    | none =>
        { status := 400, errorCode := some "BAD_REQUEST", lead := none
          db := db, cache := cache, ops := [] }
    | some p =>
        let srcCheck :
            Except String (Bool × StatusCache × List StorageOp) :=
          match orNull p.set_source_status with
          | none => .ok (true, cache, [])
          | some s =>
              match assertValidStatusOrThrow now cache registry s with
              | .error e => .error e
              | .ok (ok, r) => .ok (ok, r.cache, if r.storeRead then [.readRegistry] else [])
        match srcCheck with
        | .error _ =>
            { status := 500, errorCode := some "SERVER_ERROR", lead := none
              db := db, cache := cache, ops := [] }
        | .ok (srcOk, cache1, ops1) =>
          if ¬ srcOk then
            { status := 400, errorCode := some "INVALID_STATUS", lead := none
              db := db, cache := cache1, ops := ops1 }
          else
            let leadCheck :
                Except String (Bool × StatusCache × List StorageOp) :=
              match orNull p.set_lead_status with
              | none => .ok (true, cache1, ops1)
              | some s =>
                  match assertValidStatusOrThrow now cache1 registry s with
                  | .error e => .error e
                  | .ok (ok, r) =>
                      .ok (ok, r.cache, ops1 ++ if r.storeRead then [.readRegistry] else [])
            match leadCheck with
            | .error _ =>
                { status := 500, errorCode := some "SERVER_ERROR", lead := none
                  db := db, cache := cache1, ops := ops1 }
            | .ok (leadOk, cache2, ops2) =>
              if ¬ leadOk then
                { status := 400, errorCode := some "INVALID_STATUS", lead := none
                  db := db, cache := cache2, ops := ops2 }
              else
                let r := getOrCreateLead db source_table source_id none none
                let db1 := r.1
                let lead := r.2
                let emailEv : LeadEvent :=
                  { lead_id := lead.id
                    event_kind := "email"
                    title := orNull (some p.subject)
                    body := orNull (some (replyEmailBody p.toAddr p.subject resendId p.text))
                    from_status := none
                    to_status := none
                    created_by := orNull staffUserId }
                let db2 := { db1 with events := db1.events ++ [emailEv] }
                let ops3 := ops2 ++ getOrCreateLeadOps db source_table source_id
                              ++ [.sendEmail, .insertEvent]
                if (orNull p.set_source_status).isSome ∧ sourceUpdateErr.isSome then
                  { status := 400, errorCode := some "BAD_REQUEST", lead := none
                    db := db2, cache := cache2, ops := ops3 ++ [.updateSource] }
                else
                  let ops4 := ops3 ++
                    if (orNull p.set_source_status).isSome then [.updateSource] else []
                  match orNull p.set_lead_status with
                  | none =>
                      { status := 200, errorCode := none, lead := some lead
                        db := db2, cache := cache2, ops := ops4 }
                  | some s =>
                      let m := updateLeadStatusAndAssign lead (some s)
                        (some lead.assigned_to) staffUserId
                      { status := 200, errorCode := none, lead := some lead
                        db := applyMut db2 m, cache := cache2
                        ops := ops4 ++ (if m.writes = 0 then [] else [.updateLead])
                                 ++ m.newEvents.map (fun _ => .insertEvent) }

/-! ## 4. POST /api/diploma/admin/students (src/unnamed/part_007) -/

/-- `ALLOWED_DIPLOMA_TIERS` from the diploma server file. -/
def ALLOWED_DIPLOMA_TIERS : List String :=
  ["Targeted", "Platinum", "Diamond", "Ivy"]

/-- `cleanStringOrNull`: non-strings and blank strings collapse to null,
other strings are trimmed. -/
def cleanStringOrNull (v : Option String) : Option String :=
  match v with
  | none => none
  | some s => let t := jsTrim s; if t = "" then none else some t

/-- A row of `diploma_students` (the columns this development tracks;
further pass-through columns of the insert payload carry no control flow). -/
structure Student where
  id : Nat
  email : String
  full_name : Option String
  cohort : Option String
  diploma_tier : Option String
deriving DecidableEq, Repr

/-- The request body of the student-creation endpoint (tracked fields). -/
structure CreateStudentBody where
  email : Option String
  full_name : Option String
  cohort : Option String
  diploma_tier : Option String
  send_invite : Option Bool
deriving DecidableEq, Repr

/-- The `invite` sub-object reported alongside a created student. -/
structure InviteOutcome where
  requested : Bool
  ok : Bool
  skipped : Bool
  reason : Option String
  error : Option String
deriving DecidableEq, Repr

/-- Response of the student-creation handler, together with the resulting
`diploma_students` contents. -/
structure CreateStudentResult where
  status : Nat
  errorCode : Option String
  student : Option Student
  invite : Option InviteOutcome
  students : List Student
deriving DecidableEq, Repr

/-- A four-digit cohort (`/^\d{4}$/`). -/
def isFourDigit (s : String) : Bool :=
  s.length == 4 && s.toList.all Char.isDigit

/-- `POST /api/diploma/admin/students`.  `students` is the current table
contents; `insertErr` models a failing insert; `resendConfigured` is the
presence of both RESEND env vars; `sendOutcome` is the welcome-email send
result (`.error` when the send throws).  After a successful insert the
welcome-email send is attempted when requested; a send failure is caught
and reported in the `invite` sub-object of a 201 response, never undoing
the insert. -/
def createStudent (students : List Student) (nextId : Nat)
    (existingErr insertErr : Option String)
    (resendConfigured : Bool)
    (sendOutcome : Except String String)
    (body : CreateStudentBody) : CreateStudentResult :=
  let emailRaw := body.email.getD ""
  if jsTrim emailRaw = "" then
    { status := 400, errorCode := some "BAD_REQUEST", student := none
      invite := none, students := students }
  else
    let cleanEmail := jsToLower (jsTrim emailRaw)
    let cleanName := jsTrim (body.full_name.getD "")
    let cleanCohort := cleanStringOrNull body.cohort
    if (match cleanCohort with | some c => !(isFourDigit c) | none => false) = true then
      { status := 400, errorCode := some "BAD_REQUEST", student := none
        invite := none, students := students }
    else
      let cleanTier := cleanStringOrNull body.diploma_tier
      if (match cleanTier with | some t => !(ALLOWED_DIPLOMA_TIERS.contains t) | none => false) = true then
        { status := 400, errorCode := some "BAD_REQUEST", student := none
          invite := none, students := students }
      else if existingErr.isSome then
        { status := 500, errorCode := some "SUPABASE_ERROR", student := none
          invite := none, students := students }
      else if (students.find? (fun s => jsToLower s.email == cleanEmail)).isSome then
        { status := 409, errorCode := some "ALREADY_EXISTS", student := none
          invite := none, students := students }
      else if insertErr.isSome then
        { status := 500, errorCode := some "SUPABASE_ERROR", student := none
          invite := none, students := students }
      else
        let stu : Student :=
          { id := nextId
            email := cleanEmail
            full_name := if cleanName = "" then none else some cleanName
            cohort := cleanCohort
            diploma_tier := cleanTier }
        let students1 := students ++ [stu]
        let shouldSendInvite := body.send_invite.getD true
        let invite : InviteOutcome :=
          if ¬ shouldSendInvite then
            { requested := false, ok := false, skipped := true, reason := none, error := none }
          else if ¬ resendConfigured then
            { requested := true, ok := false, skipped := true
              reason := some "Resend not configured (missing RESEND_API_KEY or RESEND_FROM)"
              error := none }
          else
            match sendOutcome with
            | .ok _ =>
                { requested := true, ok := true, skipped := false, reason := none, error := none }
            | .error e =>
                { requested := true, ok := false, skipped := false
                  reason := none, error := some e }
        { status := 201, errorCode := none, student := some stu
          invite := some invite, students := students1 }

/-! ## 5. PATCH /api/admin/staff/:user_id (src/unnamed/part_005 and part_006) -/

/-- `normalizeEmail`: non-strings and blank strings collapse to null,
other strings are trimmed and lower-cased. -/
def normalizeEmail (v : Option String) : Option String :=
  match v with
  | none => none
  | some s => let t := jsToLower (jsTrim s); if t = "" then none else some t

/-- A row of the `staff` table (tracked columns). -/
structure Staff where
  user_id : String
  email : Option String
  role : String
  active : Bool
deriving DecidableEq, Repr

/-- The request body of the staff PATCH endpoint: `active` and `email`,
each possibly absent (`email = some none` models an explicit null). -/
structure StaffPatchBody where
  active : Option Bool
  email : Option (Option String)
deriving DecidableEq, Repr

/-- Response of the staff PATCH handler with the resulting table contents. -/
structure StaffPatchResult where
  status : Nat
  message : Option String
  staffRows : List Staff
deriving DecidableEq, Repr

/-- Number of active staff rows (`count` of `eq(active, true)`). -/
def activeStaffCount (rows : List Staff) : Nat :=
  (rows.filter (fun s => s.active)).length

/-- The row update applied by the staff PATCH: the row with the matching
user id receives the patched fields, all other rows are untouched. -/
def staffPatchFun (user_id : String) (patchActive : Option Bool)
    (patchEmail : Option (Option String)) (s : Staff) : Staff :=
  if s.user_id == user_id then
    { s with
      active := patchActive.getD s.active
      email := match patchEmail with | some e => e | none => s.email }
  else s

/-- `PATCH /api/admin/staff/:user_id` from routes/websiteAdminStaff.js
(identical in src/unnamed/part_005 lines 224-266 and part_006 lines 94-135):
build the patch from the provided fields, reject an empty patch, and when
the patch would set `active = false` first count the active staff rows and
reject with 400 when that count is at most 1; otherwise update the row
(`single()` turns a missing row into an error response). -/
def patchStaff (rows : List Staff) (user_id : String) (body : StaffPatchBody) : StaffPatchResult :=
  let patchActive := body.active
  let patchEmail := body.email.map normalizeEmail
  if patchActive.isNone && body.email.isNone then
    { status := 400, message := some "No fields to update", staffRows := rows }
  else if patchActive = some false ∧ activeStaffCount rows ≤ 1 then
    { status := 400, message := some "Cannot deactivate the last active admin."
      staffRows := rows }
  else
    match rows.find? (fun s => s.user_id == user_id) with
    | none => { status := 500, message := some "Failed to update staff", staffRows := rows }
    | some _ =>
        { status := 200, message := none
          staffRows := rows.map (staffPatchFun user_id patchActive patchEmail) }

/-! ## 6. Claims -/

/-- A demonstration lead used by concrete evaluations. -/
def demoLead : Lead :=
  { id := 1, kind := "application", source_table := "applications"
    source_row_id := "42", source_page := none, status := "new", assigned_to := none }

example : safeLeadStatus (some "new") = some "new" := by decide
example : safeLeadStatus (some "bogus") = none := by decide
example : safeLeadStatus (some "") = none := by decide
example : updateLeadStatusAndAssign demoLead (some "contacted") none none
    = { lead := { demoLead with status := "contacted" }, writes := 1
        newEvents := [{ lead_id := 1, event_kind := "status_change"
                        title := some "Status changed"
                        body := some "Lead status changed: new → contacted"
                        from_status := some "new", to_status := some "contacted"
                        created_by := none }] } := by decide

/-- Claim C7: `leadKindForSource` maps each of the six allowed source tables
to its kind tag, and `university_leads` is the unique table mapped to the
divergently named kind `university_partner`. -/
theorem claim_C7_source_row_mapper :
    (leadKindForSource "applications" = "application" ∧
     leadKindForSource "course_preregistrations" = "course_prereg" ∧
     leadKindForSource "inquiries" = "general_inquiry" ∧
     leadKindForSource "school_leads" = "school_lead" ∧
     leadKindForSource "university_leads" = "university_partner" ∧
     leadKindForSource "workshop_reservations" = "workshop_reservation") ∧
    (∀ t ∈ ALLOWED_SOURCES,
      (leadKindForSource t = "university_partner" ↔ t = "university_leads")) := by
  decide

/-- Claim C4: a no-op call of the mutator (requested status equal to the
current status, requested assignment equal to the current assignment)
performs zero writes, appends zero events, and returns the lead unchanged. -/
theorem claim_C4_noop_suppression (l : Lead) (actor : Option String) :
    updateLeadStatusAndAssign l (some l.status) (some l.assigned_to) actor =
      { lead := l, writes := 0, newEvents := [] } := by
  unfold updateLeadStatusAndAssign
  rcases hs : safeLeadStatus (some l.status) with _ | s
  · simp [hs]
  · have : s = l.status := by
      by_cases hl : l.status = ""
      · simp [safeLeadStatus, hl] at hs
      · simp [safeLeadStatus, hl] at hs
        rcases hs with ⟨-, h2⟩
        exact h2.symm
    subst this
    simp [hs]

/-- Claim C1 counterexample: `updateLeadStatusAndAssign` does not reject an
invalid `to_status`.  `safeLeadStatus` maps the unknown status to null, the
update object stays empty, and the call returns the lead unchanged with
zero writes and zero events — the only error path of the function is a
thrown storage error, so no error of any kind is reported to the caller:
the invalid value is silently dropped, contradicting the claim. -/
theorem claim_C1_counterexample :
    LEAD_STATUSES.contains "totally_bogus" = false ∧
    updateLeadStatusAndAssign demoLead (some "totally_bogus") none none =
      { lead := demoLead, writes := 0, newEvents := [] } := by
  decide

/-- Claim C1 (amended): the registry-validated PATCH route rejects an
unknown `lead_status` with 400/INVALID_STATUS and leaves the stored lead
state untouched; `updateLeadStatusAndAssign` itself does not reject an
invalid `to_status` — it silently drops it, leaving the status unchanged
and emitting no status event and no error. -/
theorem claim_C1_amended :
    (∀ (db : DB) (cache : StatusCache) (now : Nat)
       (registry : Except String (List StatusRow))
       (inboxRow : Option InboxRowInfo) (staff srcErr : Option String)
       (st sid s : String) (p : ParsedPatch) (r : RegistryLoad),
       ALLOWED_SOURCES.contains st = true →
       p.source_status = none →
       p.lead_status = some s →
       loadInboxStatuses now cache registry = .ok r →
       r.list.any (fun x => x.value == s) = false →
       (patchInbox db cache now registry inboxRow staff srcErr st sid (some p)).status = 400 ∧
       (patchInbox db cache now registry inboxRow staff srcErr st sid (some p)).errorCode
         = some "INVALID_STATUS" ∧
       (patchInbox db cache now registry inboxRow staff srcErr st sid (some p)).db = db) ∧
    (∀ (l : Lead) (s : String) (a : Option (Option String)) (act : Option String),
       LEAD_STATUSES.contains s = false →
       (updateLeadStatusAndAssign l (some s) a act).lead.status = l.status ∧
       (updateLeadStatusAndAssign l (some s) a act).newEvents.all
         (fun e => e.event_kind != "status_change") = true) := by
  constructor
  · intro db cache now registry inboxRow staff srcErr st sid s p r hst hsrc hlead hload hinvalid
    have hst2 : st ∈ ALLOWED_SOURCES := by simpa using hst
    simp [patchInbox, hst2, hsrc, hlead, assertValidStatusOrThrow, hload, hinvalid]
  · intro l s a act hs
    have hmem : s ∉ LEAD_STATUSES := by simpa using hs
    have hsafe : safeLeadStatus (some s) = none := by
      simp [safeLeadStatus, hmem]
    unfold updateLeadStatusAndAssign
    rw [hsafe]
    rcases a with _ | v
    · simp
    · by_cases hv : v = l.assigned_to <;> simp [hv]

/-- A demonstration `inbox_status` registry table. -/
def demoRegistry : List StatusRow :=
  [{ code := "new", label := "New", sort_order := 1, is_terminal := false },
   { code := "contacted", label := "Contacted", sort_order := 2, is_terminal := false }]

/-- The entries `loadInboxStatuses` derives from `demoRegistry`. -/
def demoRegistryEntries : List StatusEntry :=
  [{ value := "new", label := "New", sortOrder := 1, isTerminal := false },
   { value := "contacted", label := "Contacted", sortOrder := 2, isTerminal := false }]

/-- The registry load produced from a cold cache at time 0 over `demoRegistry`. -/
def demoRegistryLoad : RegistryLoad :=
  { list := demoRegistryEntries
    cache := { loadedAt := 0, ttlMs := 30000, cached := some demoRegistryEntries }
    storeRead := true }

/-- A demonstration database holding `demoLead`. -/
def demoDB : DB := { leads := [demoLead], events := [], nextLeadId := 2 }

/-- Witness for claim C1 (amended) at concrete inputs: a PATCH carrying the
unknown status "bogus" against a cold cache and a registry of two statuses,
and a direct mutator call with the same unknown status. -/
theorem claim_C1_amended_witness :
    ((patchInbox demoDB emptyStatusCache 0 (.ok demoRegistry) none none none
        "applications" "42"
        (some { source_status := none, assigned_to := none, lead_status := some "bogus" })).status
       = 400 ∧
     (patchInbox demoDB emptyStatusCache 0 (.ok demoRegistry) none none none
        "applications" "42"
        (some { source_status := none, assigned_to := none, lead_status := some "bogus" })).errorCode
       = some "INVALID_STATUS" ∧
     (patchInbox demoDB emptyStatusCache 0 (.ok demoRegistry) none none none
        "applications" "42"
        (some { source_status := none, assigned_to := none, lead_status := some "bogus" })).db
       = demoDB) ∧
    ((updateLeadStatusAndAssign demoLead (some "bogus") none none).lead.status
       = demoLead.status ∧
     (updateLeadStatusAndAssign demoLead (some "bogus") none none).newEvents.all
       (fun e => e.event_kind != "status_change") = true) :=
  ⟨claim_C1_amended.1 demoDB emptyStatusCache 0 (.ok demoRegistry) none none none
      "applications" "42" "bogus"
      { source_status := none, assigned_to := none, lead_status := some "bogus" }
      demoRegistryLoad (by decide) rfl rfl rfl (by decide),
   claim_C1_amended.2 demoLead "bogus" none none (by decide)⟩

/-- The key-match predicate used by `findLead` and `pairCount`. -/
def pairPred (source_table source_id : String) (l : Lead) : Bool :=
  l.source_table == source_table && l.source_row_id == source_id

lemma findLead_eq_find? (db : DB) (st sid : String) :
    findLead db st sid = db.leads.find? (pairPred st sid) := rfl

lemma pairCount_eq_filter (db : DB) (st sid : String) :
    pairCount db st sid = (db.leads.filter (pairPred st sid)).length := rfl

/-- After a creating call of the resolver, the lookup finds exactly the
inserted lead. -/
lemma findLead_after_create (db : DB) (st sid : String) (a p : Option String)
    (h : findLead db st sid = none) :
    findLead (getOrCreateLead db st sid a p).1 st sid
      = some (getOrCreateLead db st sid a p).2 := by
  unfold getOrCreateLead
  rw [h]
  rw [findLead_eq_find?] at h ⊢
  simp only []
  rw [List.find?_append, h]
  simp [pairPred]

/-- A demonstration lead whose assignment and provenance are populated. -/
def demoAssignedLead : Lead :=
  { demoLead with assigned_to := some "staff-1", source_page := some "landing" }

/-- A database holding `demoAssignedLead` together with its seed event. -/
def demoAssignedDB : DB :=
  { leads := [demoAssignedLead]
    events := [leadCreatedEvent 1 "applications" "42"]
    nextLeadId := 2 }

/-- Claim C2 counterexample: the upsert-based `getOrCreateLead` of
routes/websiteAdminInbox.js, called for an already-resolved source row with
the optional arguments absent, does not return the existing Lead
unmodified — the upsert resolves the conflict by updating the supplied
columns, wiping the stored assignment and provenance. -/
theorem claim_C2_counterexample :
    findLead demoAssignedDB "applications" "42" = some demoAssignedLead ∧
    (wa_getOrCreateLead demoAssignedDB "applications" "42" none none).2 ≠ demoAssignedLead ∧
    (wa_getOrCreateLead demoAssignedDB "applications" "42" none none).2.assigned_to = none ∧
    (wa_getOrCreateLead demoAssignedDB "applications" "42" none none).2.source_page = none := by
  decide

lemma getOrCreateLead_found (db : DB) (st sid : String) (a p : Option String) (l : Lead)
    (h : findLead db st sid = some l) : getOrCreateLead db st sid a p = (db, l) := by
  unfold getOrCreateLead
  rw [h]

/-- Claim C2 (amended): the find-then-insert resolver of utils/leadUtils.js
is idempotent exactly as claimed — an existing Lead is returned unmodified
with the arguments having no effect, two successive calls agree on the lead
id with the second call leaving the database untouched, and at-most-one
row per (source_table, source_id) pair is preserved.  The upsert-based
resolver of routes/websiteAdminInbox.js reuses the existing row (same id,
same status) but overwrites its kind, source_page and assigned_to columns
with the supplied arguments. -/
theorem claim_C2_amended :
    (∀ (db : DB) (st sid : String) (a p : Option String) (l : Lead),
       findLead db st sid = some l → getOrCreateLead db st sid a p = (db, l)) ∧
    (∀ (db : DB) (st sid : String) (a p a2 p2 : Option String),
       (getOrCreateLead (getOrCreateLead db st sid a p).1 st sid a2 p2).2.id
         = (getOrCreateLead db st sid a p).2.id ∧
       (getOrCreateLead (getOrCreateLead db st sid a p).1 st sid a2 p2).1
         = (getOrCreateLead db st sid a p).1) ∧
    (∀ (db : DB) (st sid : String) (a p : Option String),
       pairCount db st sid ≤ 1 → pairCount (getOrCreateLead db st sid a p).1 st sid ≤ 1) ∧
    (∀ (db : DB) (st sid : String) (a p : Option String) (l : Lead),
       findLead db st sid = some l →
       (wa_getOrCreateLead db st sid a p).2.id = l.id ∧
       (wa_getOrCreateLead db st sid a p).2.status = l.status ∧
       (wa_getOrCreateLead db st sid a p).2.kind = leadKindForSource st ∧
       (wa_getOrCreateLead db st sid a p).2.assigned_to = orNull a ∧
       (wa_getOrCreateLead db st sid a p).2.source_page = orNull p) := by
  refine ⟨?_, ?_, ?_, ?_⟩
  · exact getOrCreateLead_found
  · intro db st sid a p a2 p2
    cases h : findLead db st sid with
    | some l =>
        have h1 := getOrCreateLead_found db st sid a p l h
        have h2 := getOrCreateLead_found db st sid a2 p2 l h
        rw [h1, h2]
        exact ⟨rfl, rfl⟩
    | none =>
        have h1 := findLead_after_create db st sid a p h
        have h2 := getOrCreateLead_found (getOrCreateLead db st sid a p).1 st sid a2 p2
          (getOrCreateLead db st sid a p).2 h1
        rw [h2]
        exact ⟨rfl, rfl⟩
  · intro db st sid a p hle
    cases h : findLead db st sid with
    | some l =>
        rw [getOrCreateLead_found db st sid a p l h]
        exact hle
    | none =>
        have hnil : db.leads.filter (pairPred st sid) = [] := by
          rw [List.filter_eq_nil_iff]
          intro x hx
          rw [findLead_eq_find?] at h
          exact List.find?_eq_none.mp h x hx
        unfold getOrCreateLead
        rw [h]
        rw [pairCount_eq_filter]
        simp only [List.filter_append, List.length_append, hnil]
        simp [pairPred]
  · intro db st sid a p l h
    unfold wa_getOrCreateLead
    rw [h]
    exact ⟨rfl, rfl, rfl, rfl, rfl⟩

/-- Witness for claim C2 (amended) at concrete inputs: the find-then-insert
resolver over the populated demonstration database, and the upsert resolver
over the same database. -/
theorem claim_C2_amended_witness :
    (getOrCreateLead demoAssignedDB "applications" "42" none none
       = (demoAssignedDB, demoAssignedLead)) ∧
    (pairCount (getOrCreateLead demoAssignedDB "applications" "42" none none).1
       "applications" "42" ≤ 1) ∧
    ((wa_getOrCreateLead demoAssignedDB "applications" "42" none none).2.id
       = demoAssignedLead.id ∧
     (wa_getOrCreateLead demoAssignedDB "applications" "42" none none).2.status
       = demoAssignedLead.status) :=
  ⟨claim_C2_amended.1 demoAssignedDB "applications" "42" none none demoAssignedLead (by decide),
   claim_C2_amended.2.2.1 demoAssignedDB "applications" "42" none none (by decide),
   (claim_C2_amended.2.2.2 demoAssignedDB "applications" "42" none none demoAssignedLead
      (by decide)).1,
   (claim_C2_amended.2.2.2 demoAssignedDB "applications" "42" none none demoAssignedLead
      (by decide)).2.1⟩

/-- Claim C3: a Lead created by the resolver has at least one event —
the synthetic "Lead created" event — immediately afterwards; an accepted
status change appends exactly one status_change event recording
from_status and to_status; and an accepted assignment change appends
exactly one assignment-changed event of kind `other`. -/
theorem claim_C3_audit_completeness :
    (∀ (db : DB) (st sid : String) (a p : Option String),
       findLead db st sid = none →
       leadCreatedEvent db.nextLeadId st sid ∈ (getOrCreateLead db st sid a p).1.events ∧
       1 ≤ ((getOrCreateLead db st sid a p).1.events.filter
              (fun e => e.lead_id == (getOrCreateLead db st sid a p).2.id)).length) ∧
    (∀ (l : Lead) (s : String) (a : Option (Option String)) (act : Option String),
       LEAD_STATUSES.contains s = true → s ≠ l.status →
       (updateLeadStatusAndAssign l (some s) a act).newEvents.filter
           (fun e => e.event_kind == "status_change")
         = [{ lead_id := l.id, event_kind := "status_change"
              title := some "Status changed"
              body := some ("Lead status changed: " ++ l.status ++ " → " ++ s)
              from_status := some l.status, to_status := some s
              created_by := orNull act }]) ∧
    (∀ (l : Lead) (to_status : Option String) (v : Option String) (act : Option String),
       v ≠ l.assigned_to →
       (updateLeadStatusAndAssign l to_status (some v) act).newEvents.filter
           (fun e => e.event_kind == "other")
         = [{ lead_id := l.id, event_kind := "other"
              title := some "Assignment changed"
              body := some "Lead assigned_to updated."
              from_status := none, to_status := none
              created_by := orNull act }]) := by
  refine ⟨?_, ?_, ?_⟩
  · intro db st sid a p h
    unfold getOrCreateLead
    rw [h]
    constructor
    · simp
    · simp [List.filter_append, leadCreatedEvent]
  · intro l s a act hcont hneq
    have hmem : s ∈ LEAD_STATUSES := by simpa using hcont
    have hne : s ≠ "" := by
      intro h
      rw [h] at hmem
      simp [LEAD_STATUSES] at hmem
    have hsafe : safeLeadStatus (some s) = some s := by
      simp [safeLeadStatus, hne, hmem]
    unfold updateLeadStatusAndAssign
    rw [hsafe]
    simp only [hneq, if_pos, ne_eq, not_false_eq_true]
    rcases a with _ | v
    · simp
    · by_cases hv : v = l.assigned_to <;> simp [hv]
  · intro l to_status v act hv
    unfold updateLeadStatusAndAssign
    rcases hs : safeLeadStatus to_status with _ | s
    · simp [hv]
    · by_cases hss : s = l.status <;> simp [hv, hss]

/-- Witness for claim C3 at concrete inputs: a creating resolver call, an
accepted status change and an accepted assignment change on `demoLead`. -/
theorem claim_C3_audit_completeness_witness :
    (leadCreatedEvent demoDB.nextLeadId "inquiries" "7"
       ∈ (getOrCreateLead demoDB "inquiries" "7" none none).1.events ∧
     1 ≤ ((getOrCreateLead demoDB "inquiries" "7" none none).1.events.filter
            (fun e => e.lead_id == (getOrCreateLead demoDB "inquiries" "7" none none).2.id)).length) ∧
    ((updateLeadStatusAndAssign demoLead (some "contacted") none none).newEvents.filter
         (fun e => e.event_kind == "status_change")
       = [{ lead_id := demoLead.id, event_kind := "status_change"
            title := some "Status changed"
            body := some ("Lead status changed: " ++ demoLead.status ++ " → " ++ "contacted")
            from_status := some demoLead.status, to_status := some "contacted"
            created_by := orNull none }]) ∧
    ((updateLeadStatusAndAssign demoLead none (some (some "staff-2")) none).newEvents.filter
         (fun e => e.event_kind == "other")
       = [{ lead_id := demoLead.id, event_kind := "other"
            title := some "Assignment changed"
            body := some "Lead assigned_to updated."
            from_status := none, to_status := none
            created_by := orNull none }]) :=
  ⟨claim_C3_audit_completeness.1 demoDB "inquiries" "7" none none (by decide),
   claim_C3_audit_completeness.2.1 demoLead "contacted" none none (by decide) (by decide),
   claim_C3_audit_completeness.2.2 demoLead none (some "staff-2") none (by decide)⟩

/-- A one-row demonstration inbox view. -/
def demoView : List InboxViewRow :=
  [{ created_at := 5, kind := "application", source_table := "applications"
     assigned_to := none, full_name := "Ada", email := "ada@example.com"
     organization_name := "", city := "", interest_summary := "" }]

/-- Claim C5 counterexample: the inbox listing endpoint also takes a
`source_table` parameter (as a query filter), yet for a value outside the
six-member allow-list it performs its view read and responds 200 with an
empty page instead of rejecting with 400 before any storage access. -/
theorem claim_C5_counterexample :
    ALLOWED_SOURCES.contains "secret_table" = false ∧
    (listInbox demoView demoView none
       { scope := none, q := none, kind := none, source_table := some "secret_table"
         assigned_to := none, page := none, pageSize := none }).status = 200 ∧
    (listInbox demoView demoView none
       { scope := none, q := none, kind := none, source_table := some "secret_table"
         assigned_to := none, page := none, pageSize := none }).ops
      = [StorageOp.readView] := by
  decide

/-- Claim C5 (amended): every endpoint taking `source_table` as a path
parameter — detail, patch, note and reply — rejects a value outside the
six-member allow-list with 400/BAD_REQUEST before any storage access,
leaving the database untouched; the listing endpoint instead uses its
`source_table` query parameter only as an equality filter over the fixed
inbox views. -/
theorem claim_C5_amended (st : String) (h : ALLOWED_SOURCES.contains st = false) :
    (∀ (db : DB) (cache : StatusCache) (sid : String)
       (inboxRow : Option InboxRowInfo) (sourceRow : Option SourceRowInfo),
       detailInbox db cache st sid inboxRow sourceRow
         = { status := 400, errorCode := some "BAD_REQUEST", lead := none
             db := db, cache := cache, ops := [] }) ∧
    (∀ (db : DB) (cache : StatusCache) (now : Nat)
       (registry : Except String (List StatusRow))
       (inboxRow : Option InboxRowInfo) (staff srcErr : Option String)
       (sid : String) (parsed : Option ParsedPatch),
       patchInbox db cache now registry inboxRow staff srcErr st sid parsed
         = { status := 400, errorCode := some "BAD_REQUEST", lead := none
             db := db, cache := cache, ops := [] }) ∧
    (∀ (db : DB) (cache : StatusCache) (staff : Option String)
       (sid : String) (parsed : Option ParsedNote),
       noteInbox db cache staff st sid parsed
         = { status := 400, errorCode := some "BAD_REQUEST", lead := none
             db := db, cache := cache, ops := [] }) ∧
    (∀ (db : DB) (cache : StatusCache) (now : Nat)
       (registry : Except String (List StatusRow))
       (staff srcErr resendId : Option String)
       (sid : String) (parsed : Option ParsedReply),
       replyInbox db cache now registry staff srcErr resendId st sid parsed
         = { status := 400, errorCode := some "BAD_REQUEST", lead := none
             db := db, cache := cache, ops := [] }) := by
  have hst : st ∉ ALLOWED_SOURCES := by simpa using h
  refine ⟨?_, ?_, ?_, ?_⟩
  · intro db cache sid inboxRow sourceRow
    simp [detailInbox, hst]
  · intro db cache now registry inboxRow staff srcErr sid parsed
    simp [patchInbox, hst]
  · intro db cache staff sid parsed
    simp [noteInbox, hst]
  · intro db cache now registry staff srcErr resendId sid parsed
    simp [replyInbox, hst]

/-- Witness for claim C5 (amended) with the disallowed table "staff" at
concrete arguments for each of the four path-parameter handlers. -/
theorem claim_C5_amended_witness :
    (detailInbox demoDB emptyStatusCache "staff" "42" none none
       = { status := 400, errorCode := some "BAD_REQUEST", lead := none
           db := demoDB, cache := emptyStatusCache, ops := [] }) ∧
    (patchInbox demoDB emptyStatusCache 0 (.ok demoRegistry) none none none "staff" "42" none
       = { status := 400, errorCode := some "BAD_REQUEST", lead := none
           db := demoDB, cache := emptyStatusCache, ops := [] }) ∧
    (noteInbox demoDB emptyStatusCache none "staff" "42" none
       = { status := 400, errorCode := some "BAD_REQUEST", lead := none
           db := demoDB, cache := emptyStatusCache, ops := [] }) ∧
    (replyInbox demoDB emptyStatusCache 0 (.ok demoRegistry) none none none "staff" "42" none
       = { status := 400, errorCode := some "BAD_REQUEST", lead := none
           db := demoDB, cache := emptyStatusCache, ops := [] }) :=
  ⟨(claim_C5_amended "staff" (by decide)).1 demoDB emptyStatusCache "42" none none,
   (claim_C5_amended "staff" (by decide)).2.1 demoDB emptyStatusCache 0 (.ok demoRegistry)
     none none none "42" none,
   (claim_C5_amended "staff" (by decide)).2.2.1 demoDB emptyStatusCache none "42" none,
   (claim_C5_amended "staff" (by decide)).2.2.2 demoDB emptyStatusCache 0 (.ok demoRegistry)
     none none none "42" none⟩

/-- A minimal inbox view row carrying only its creation timestamp. -/
def demoViewRow (i : Nat) : InboxViewRow :=
  { created_at := i, kind := "", source_table := "", assigned_to := none
    full_name := "", email := "", organization_name := "", city := ""
    interest_summary := "" }

/-- A 60-row view with distinct creation timestamps 0..59. -/
def demo60 : List InboxViewRow := (List.range 60).map demoViewRow

/-- The query of the pagination scenario: page 3 of pageSize 25. -/
def demoScenarioQuery : ListQuery :=
  { scope := some "all", q := none, kind := none, source_table := none
    assigned_to := none, page := some 3, pageSize := some 25 }

lemma take_window {α : Type} (F : List α) (S P : Nat) (h : 1 ≤ P) :
    (F.drop S).take (S + P - 1 - S + 1) = (F.drop S).take P := by
  have hx : S + P - 1 - S + 1 = P := by omega
  rw [hx]

/-- Claim C6: the inbox listing is 1-indexed with pageSize defaulting to 25
and capped at 100; a successful response carries exactly the window
[(page-1)*pageSize, (page-1)*pageSize + pageSize - 1] of the filtered
result ordered newest-created-first, together with its total count; and on
a 60-row filtered result, page 3 at pageSize 25 yields rows 51-60 (the 10
oldest) with total 60. -/
theorem claim_C6_pagination :
    (∀ (viewOpen viewAll : List InboxViewRow) (params : ListQuery),
       (listInbox viewOpen viewAll none params).status = 200 ∧
       (listInbox viewOpen viewAll none params).page = max 1 (params.page.getD 1) ∧
       1 ≤ (listInbox viewOpen viewAll none params).page ∧
       (listInbox viewOpen viewAll none params).pageSize
         = min 100 (max 10 (params.pageSize.getD 25)) ∧
       (listInbox viewOpen viewAll none params).pageSize ≤ 100 ∧
       (listInbox viewOpen viewAll none { params with pageSize := none }).pageSize = 25 ∧
       (listInbox viewOpen viewAll none params).rows
         = ((applyListFilters
               (sortNewestFirst (if params.scope.getD "open" = "all" then viewAll else viewOpen))
               (jsTrim (params.q.getD "")) (jsTrim (params.kind.getD ""))
               (jsTrim (params.source_table.getD "")) (jsTrim (params.assigned_to.getD ""))).drop
             (((listInbox viewOpen viewAll none params).page - 1)
               * (listInbox viewOpen viewAll none params).pageSize)).take
             (listInbox viewOpen viewAll none params).pageSize ∧
       (listInbox viewOpen viewAll none params).total
         = (applyListFilters
              (sortNewestFirst (if params.scope.getD "open" = "all" then viewAll else viewOpen))
              (jsTrim (params.q.getD "")) (jsTrim (params.kind.getD ""))
              (jsTrim (params.source_table.getD "")) (jsTrim (params.assigned_to.getD ""))).length) ∧
    ((listInbox demo60 demo60 none demoScenarioQuery).rows
       = ((List.range 10).reverse).map demoViewRow ∧
     (listInbox demo60 demo60 none demoScenarioQuery).rows.length = 10 ∧
     (listInbox demo60 demo60 none demoScenarioQuery).total = 60 ∧
     (listInbox demo60 demo60 none demoScenarioQuery).page = 3 ∧
     (listInbox demo60 demo60 none demoScenarioQuery).pageSize = 25) := by
  constructor
  · intro viewOpen viewAll params
    have hP : 1 ≤ min 100 (max 10 (params.pageSize.getD 25)) :=
      le_min (by norm_num) (le_trans (by norm_num) (le_max_left 10 (params.pageSize.getD 25)))
    refine ⟨rfl, rfl, le_max_left 1 _, rfl, min_le_left _ _, rfl, ?_, rfl⟩
    exact take_window _ _ _ hP
  · exact ⟨by decide, by decide, by decide, by decide, by decide⟩

lemma loadInboxStatuses_ok_cached (t : Nat) (c : StatusCache)
    (store : Except String (List StatusRow)) (r : RegistryLoad)
    (h : loadInboxStatuses t c store = .ok r) : r.cache.cached = some r.list := by
  unfold loadInboxStatuses loadFresh at h
  cases hc : c.cached with
  | some l =>
      rw [hc] at h
      dsimp only at h
      by_cases hlt : t - c.loadedAt < c.ttlMs
      · rw [if_pos hlt] at h
        cases h
        exact hc
      · rw [if_neg hlt] at h
        cases store with
        | error e => cases h
        | ok rows => cases h; rfl
  | none =>
      rw [hc] at h
      dsimp only at h
      cases store with
      | error e => cases h
      | ok rows => cases h; rfl

/-- Claim C8: the registry cache interval is 30 seconds; after any
successful load, a call within the interval returns the cached list
without reading the store (for any store state); a call at or past the
interval re-reads the lookup table ordered by sort order then code; and a
failing read propagates to the caller as an explicit error rather than an
"invalid" verdict. -/
theorem claim_C8_status_registry :
    emptyStatusCache.ttlMs = 30000 ∧
    (∀ (t : Nat) (c : StatusCache) (store : Except String (List StatusRow)) (r : RegistryLoad),
       loadInboxStatuses t c store = .ok r →
       ∀ (now : Nat) (store2 : Except String (List StatusRow)),
         now - r.cache.loadedAt < r.cache.ttlMs →
         loadInboxStatuses now r.cache store2
           = .ok { list := r.list, cache := r.cache, storeRead := false }) ∧
    (∀ (now : Nat) (c : StatusCache) (rows : List StatusRow),
       c.ttlMs ≤ now - c.loadedAt →
       loadInboxStatuses now c (.ok rows)
         = .ok { list := (sortByB statusRowLe rows).map (fun x =>
                   { value := x.code, label := x.label
                     sortOrder := x.sort_order, isTerminal := x.is_terminal })
                 cache := { c with
                            loadedAt := now
                            cached := some ((sortByB statusRowLe rows).map (fun x =>
                              { value := x.code, label := x.label
                                sortOrder := x.sort_order, isTerminal := x.is_terminal })) }
                 storeRead := true }) ∧
    (∀ (now : Nat) (c : StatusCache) (e : String),
       c.ttlMs ≤ now - c.loadedAt →
       loadInboxStatuses now c (.error e) = .error e) := by
  refine ⟨rfl, ?_, ?_, ?_⟩
  · intro t c store r h now store2 hlt
    have hc := loadInboxStatuses_ok_cached t c store r h
    unfold loadInboxStatuses
    rw [hc]
    dsimp only
    rw [if_pos hlt]
  · intro now c rows hstale
    have hnot : ¬ now - c.loadedAt < c.ttlMs := not_lt.mpr hstale
    unfold loadInboxStatuses loadFresh
    cases hc : c.cached with
    | some l =>
        dsimp only
        rw [if_neg hnot]
    | none => rfl
  · intro now c e hstale
    have hnot : ¬ now - c.loadedAt < c.ttlMs := not_lt.mpr hstale
    unfold loadInboxStatuses loadFresh
    cases hc : c.cached with
    | some l =>
        dsimp only
        rw [if_neg hnot]
    | none => rfl

/-- Witness for claim C8 at concrete inputs: a cold load at time 0 over
`demoRegistry`, a cache hit at time 10 against a failing store, a stale
re-read at time 30000, and a stale failing read. -/
theorem claim_C8_status_registry_witness :
    emptyStatusCache.ttlMs = 30000 ∧
    loadInboxStatuses 10 demoRegistryLoad.cache (.error "boom")
      = .ok { list := demoRegistryLoad.list, cache := demoRegistryLoad.cache
              storeRead := false } ∧
    loadInboxStatuses 30000 emptyStatusCache (.ok demoRegistry)
      = .ok { list := (sortByB statusRowLe demoRegistry).map (fun x =>
                { value := x.code, label := x.label
                  sortOrder := x.sort_order, isTerminal := x.is_terminal })
              cache := { emptyStatusCache with
                         loadedAt := 30000
                         cached := some ((sortByB statusRowLe demoRegistry).map (fun x =>
                           { value := x.code, label := x.label
                             sortOrder := x.sort_order, isTerminal := x.is_terminal })) }
              storeRead := true } ∧
    loadInboxStatuses 30000 emptyStatusCache (.error "boom") = .error "boom" :=
  ⟨claim_C8_status_registry.1,
   claim_C8_status_registry.2.1 0 emptyStatusCache (.ok demoRegistry) demoRegistryLoad
     rfl 10 (.error "boom") (by decide),
   claim_C8_status_registry.2.2.1 30000 emptyStatusCache demoRegistry (by decide),
   claim_C8_status_registry.2.2.2 30000 emptyStatusCache "boom" (by decide)⟩

/-- Claim C9: when the insert of a new diploma student succeeds, a failing
welcome-email send does not undo the creation — the handler still responds
201 with the created student (which remains in the table) and reports the
send failure inside the `invite` sub-object as
`{requested, ok, skipped, error}`. -/
theorem claim_C9_welcome_email_nonfatal
    (students : List Student) (nextId : Nat) (e : String) (body : CreateStudentBody)
    (hemail : jsTrim (body.email.getD "") ≠ "")
    (hcoh : (match cleanStringOrNull body.cohort with
              | some c => isFourDigit c
              | none => true) = true)
    (htier : (match cleanStringOrNull body.diploma_tier with
              | some t => ALLOWED_DIPLOMA_TIERS.contains t
              | none => true) = true)
    (hexist : students.find? (fun s => jsToLower s.email == jsToLower (jsTrim (body.email.getD ""))) = none)
    (hsend : body.send_invite ≠ some false) :
    (createStudent students nextId none none true (.error e) body).status = 201 ∧
    (createStudent students nextId none none true (.error e) body).student
      = some { id := nextId
               email := jsToLower (jsTrim (body.email.getD ""))
               full_name := if jsTrim (body.full_name.getD "") = "" then none
                            else some (jsTrim (body.full_name.getD ""))
               cohort := cleanStringOrNull body.cohort
               diploma_tier := cleanStringOrNull body.diploma_tier } ∧
    (createStudent students nextId none none true (.error e) body).students
      = students ++ [{ id := nextId
                       email := jsToLower (jsTrim (body.email.getD ""))
                       full_name := if jsTrim (body.full_name.getD "") = "" then none
                                    else some (jsTrim (body.full_name.getD ""))
                       cohort := cleanStringOrNull body.cohort
                       diploma_tier := cleanStringOrNull body.diploma_tier }] ∧
    (createStudent students nextId none none true (.error e) body).invite
      = some { requested := true, ok := false, skipped := false
               reason := none, error := some e } := by
  have hg2 : (match cleanStringOrNull body.cohort with
              | some c => !(isFourDigit c)
              | none => false) = false := by
    cases hc : cleanStringOrNull body.cohort with
    | none => rfl
    | some c =>
        rw [hc] at hcoh
        dsimp only at hcoh ⊢
        simp [hcoh]
  have hg3 : (match cleanStringOrNull body.diploma_tier with
              | some t => !(ALLOWED_DIPLOMA_TIERS.contains t)
              | none => false) = false := by
    cases hc : cleanStringOrNull body.diploma_tier with
    | none => rfl
    | some t =>
        rw [hc] at htier
        dsimp only at htier ⊢
        have hmem : t ∈ ALLOWED_DIPLOMA_TIERS := by simpa using htier
        simp [hmem]
  have hsend2 : body.send_invite.getD true = true := by
    cases hs : body.send_invite with
    | none => rfl
    | some b =>
        cases b with
        | true => rfl
        | false => exact absurd hs hsend
  unfold createStudent
  simp only [hemail, hg2, hg3, hexist, hsend2, if_false, if_neg, ite_false,
    Option.isSome_none, Bool.false_eq_true, not_true_eq_false, not_false_eq_true,
    ite_true, if_true, Option.isSome_some]
  simp [hemail, hg2, hg3, hexist, hsend2]

/-- Witness for claim C9: creating "Ada@Example.com " into an empty table
with a failing welcome-email send. -/
theorem claim_C9_welcome_email_nonfatal_witness :
    (createStudent [] 1 none none true (.error "smtp down")
       { email := some "Ada@Example.com ", full_name := some "Ada Lovelace"
         cohort := some "2026", diploma_tier := some "Ivy", send_invite := none }).status
      = 201 ∧
    (createStudent [] 1 none none true (.error "smtp down")
       { email := some "Ada@Example.com ", full_name := some "Ada Lovelace"
         cohort := some "2026", diploma_tier := some "Ivy", send_invite := none }).student
      = some { id := 1, email := "ada@example.com", full_name := some "Ada Lovelace"
               cohort := some "2026", diploma_tier := some "Ivy" } ∧
    (createStudent [] 1 none none true (.error "smtp down")
       { email := some "Ada@Example.com ", full_name := some "Ada Lovelace"
         cohort := some "2026", diploma_tier := some "Ivy", send_invite := none }).students
      = [{ id := 1, email := "ada@example.com", full_name := some "Ada Lovelace"
           cohort := some "2026", diploma_tier := some "Ivy" }] ∧
    (createStudent [] 1 none none true (.error "smtp down")
       { email := some "Ada@Example.com ", full_name := some "Ada Lovelace"
         cohort := some "2026", diploma_tier := some "Ivy", send_invite := none }).invite
      = some { requested := true, ok := false, skipped := false
               reason := none, error := some "smtp down" } :=
  claim_C9_welcome_email_nonfatal [] 1 "smtp down"
    { email := some "Ada@Example.com ", full_name := some "Ada Lovelace"
      cohort := some "2026", diploma_tier := some "Ivy", send_invite := none }
    (by decide) (by decide) (by decide) rfl (by decide)


lemma activeStaffCount_cons (s : Staff) (rest : List Staff) :
    activeStaffCount (s :: rest)
      = (if s.active then 1 else 0) + activeStaffCount rest := by
  by_cases ha : s.active = true <;>
    · simp [activeStaffCount, List.filter_cons, ha]
      try omega

lemma keyMatchCount_cons (uid : String) (s : Staff) (rest : List Staff) :
    ((s :: rest).filter (fun x => x.user_id == uid)).length
      = (if s.user_id == uid then 1 else 0)
          + (rest.filter (fun x => x.user_id == uid)).length := by
  by_cases hu : (s.user_id == uid) = true <;>
    · simp [List.filter_cons, hu]
      try omega

lemma staffPatchFun_active (uid : String) (act : Option Bool)
    (em : Option (Option String)) (s : Staff) :
    (staffPatchFun uid act em s).active
      = if s.user_id == uid then act.getD s.active else s.active := by
  unfold staffPatchFun
  by_cases hu : (s.user_id == uid) = true <;> simp [hu]

lemma staffMap_deactivate_bound (uid : String) (em : Option (Option String)) :
    ∀ rows : List Staff,
      activeStaffCount rows ≤
        activeStaffCount (rows.map (staffPatchFun uid (some false) em))
          + (rows.filter (fun s => s.user_id == uid)).length
  | [] => by simp [activeStaffCount]
  | s :: rest => by
      have ih := staffMap_deactivate_bound uid em rest
      rw [List.map_cons, activeStaffCount_cons, activeStaffCount_cons,
        keyMatchCount_cons, staffPatchFun_active]
      by_cases hu : (s.user_id == uid) = true
      · by_cases ha : s.active = true <;> simp [hu, ha] <;> omega
      · by_cases ha : s.active = true <;> simp [hu, ha] <;> omega

lemma staffMap_activate_bound (uid : String) (em : Option (Option String)) :
    ∀ rows : List Staff,
      activeStaffCount rows ≤
        activeStaffCount (rows.map (staffPatchFun uid (some true) em))
  | [] => by simp [activeStaffCount]
  | s :: rest => by
      have ih := staffMap_activate_bound uid em rest
      rw [List.map_cons, activeStaffCount_cons, activeStaffCount_cons,
        staffPatchFun_active]
      by_cases hu : (s.user_id == uid) = true
      · by_cases ha : s.active = true <;> simp [hu, ha] <;> omega
      · by_cases ha : s.active = true <;> simp [hu, ha] <;> omega

lemma staffMap_email_only (uid : String) (em : Option (Option String)) :
    ∀ rows : List Staff,
      activeStaffCount (rows.map (staffPatchFun uid none em))
        = activeStaffCount rows
  | [] => by simp [activeStaffCount]
  | s :: rest => by
      have ih := staffMap_email_only uid em rest
      rw [List.map_cons, activeStaffCount_cons, activeStaffCount_cons,
        staffPatchFun_active]
      by_cases hu : (s.user_id == uid) = true
      · by_cases ha : s.active = true <;> simp [hu, ha] <;> omega
      · by_cases ha : s.active = true <;> simp [hu, ha] <;> omega

/-- Claim C10: a staff PATCH that would set `active = false` is rejected
with 400 ("Cannot deactivate the last active admin.") whenever at most one
active staff row exists, leaving the table unchanged; consequently — for a
table in which at most one row carries the targeted user id — the PATCH
operation preserves the invariant that at least one active staff row
remains. -/
theorem claim_C10_last_active_admin :
    (∀ (rows : List Staff) (uid : String) (body : StaffPatchBody),
       body.active = some false → activeStaffCount rows ≤ 1 →
       patchStaff rows uid body
         = { status := 400, message := some "Cannot deactivate the last active admin."
             staffRows := rows }) ∧
    (∀ (rows : List Staff) (uid : String) (body : StaffPatchBody),
       1 ≤ activeStaffCount rows →
       (rows.filter (fun s => s.user_id == uid)).length ≤ 1 →
       1 ≤ activeStaffCount (patchStaff rows uid body).staffRows) := by
  constructor
  · intro rows uid body hactive hle
    unfold patchStaff
    rw [hactive]
    simp [hle]
  · intro rows uid body hone hkey
    unfold patchStaff
    by_cases hempty : (body.active.isNone && body.email.isNone) = true
    · simp [hempty]
      exact hone
    · rw [if_neg (by simpa using hempty)]
      by_cases hguard : body.active = some false ∧ activeStaffCount rows ≤ 1
      · rw [if_pos hguard]
        exact hone
      · rw [if_neg hguard]
        cases hfind : rows.find? (fun s => s.user_id == uid) with
        | none => exact hone
        | some s0 =>
            dsimp only
            cases hact : body.active with
            | none =>
                rw [staffMap_email_only uid (body.email.map normalizeEmail) rows]
                exact hone
            | some b =>
                cases b with
                | true =>
                    exact le_trans hone
                      (staffMap_activate_bound uid (body.email.map normalizeEmail) rows)
                | false =>
                    have hcnt : 2 ≤ activeStaffCount rows := by
                      by_contra hc
                      push_neg at hc
                      exact hguard ⟨hact, by omega⟩
                    have hb := staffMap_deactivate_bound uid (body.email.map normalizeEmail) rows
                    omega

/-- A staff table with a single active super admin. -/
def demoStaffOne : List Staff :=
  [{ user_id := "u1", email := some "a@ausa.io", role := "super_admin", active := true }]

/-- A staff table with two active rows. -/
def demoStaffTwo : List Staff :=
  [{ user_id := "u1", email := some "a@ausa.io", role := "super_admin", active := true },
   { user_id := "u2", email := some "b@ausa.io", role := "admin", active := true }]

/-- Witness for claim C10: deactivating the only active admin is rejected,
and deactivating one of two active rows leaves an active row. -/
theorem claim_C10_last_active_admin_witness :
    patchStaff demoStaffOne "u1" { active := some false, email := none }
      = { status := 400, message := some "Cannot deactivate the last active admin."
          staffRows := demoStaffOne } ∧
    1 ≤ activeStaffCount
          (patchStaff demoStaffTwo "u1" { active := some false, email := none }).staffRows :=
  ⟨claim_C10_last_active_admin.1 demoStaffOne "u1"
      { active := some false, email := none } rfl (by decide),
   claim_C10_last_active_admin.2 demoStaffTwo "u1"
      { active := some false, email := none } (by decide) (by decide)⟩
